import Mathlib

/-!
Shallow embedding of the fetchr.sh forward-proxy core
(internal/proxy/history.go and internal/proxy/proxy.go) and proofs
of the specified properties of the request-history store, the
statistics aggregator and the forwarding pipeline.

Modelling conventions:
* Go `time.Time` values are modelled as `Int` nanosecond instants, so
  `t1.Sub(t0)` is the `Int` difference and `Duration.Milliseconds()`
  is truncating division by 1_000_000 (`Int.tdiv`, which rounds toward
  zero exactly as Go's `int64` division does).
* Go `int64` arithmetic is modelled on `Int`; the values involved in
  the claims are far below overflow, and Go division is `Int.tdiv`.
* The store's mutex only serialises operations; the sequential
  semantics of each operation is what is modelled.
-/

namespace Fetchr

/-- Go `Duration.Milliseconds()` for a duration given in nanoseconds:
`int64(d) / 1e6` with Go's truncated (toward-zero) division. -/
def durationMilliseconds (ns : Int) : Int :=
  Int.tdiv ns 1000000

/-- RequestRecord from internal/proxy/history.go: one captured proxied
HTTP transaction.  `time.Time` fields are `Int` nanosecond instants. -/
structure RequestRecord where
  id : String
  timestamp : Int
  method : String
  url : String
  requestHeaders : List (String × String)
  requestBody : String
  responseStatus : Nat
  responseHeaders : List (String × String)
  responseBody : String
  proxyStartTime : Int
  upstreamStartTime : Int
  upstreamEndTime : Int
  proxyEndTime : Int
  proxyOverheadMs : Int
  upstreamLatencyMs : Int
  totalDurationMs : Int
  requestSize : Int
  responseSize : Int
  success : Bool
  error : String
  deriving DecidableEq

/-- RequestHistory from internal/proxy/history.go (without the mutex,
which only serialises the operations modelled here). -/
structure RequestHistory where
  records : List RequestRecord
  maxSize : Nat
  deriving DecidableEq

/-- NewRequestHistory from internal/proxy/history.go. -/
def NewRequestHistory (maxSize : Nat) : RequestHistory :=
  { records := [], maxSize := maxSize }

/-- The metric computation at the top of `AddRecord`
(internal/proxy/history.go lines 61-64):
`record.TotalDurationMs = record.ProxyEndTime.Sub(record.ProxyStartTime).Milliseconds()`,
`record.UpstreamLatencyMs = record.UpstreamEndTime.Sub(record.UpstreamStartTime).Milliseconds()`,
`record.ProxyOverheadMs = record.TotalDurationMs - record.UpstreamLatencyMs`. -/
def setMetrics (record : RequestRecord) : RequestRecord :=
  let record := { record with
    totalDurationMs := durationMilliseconds (record.proxyEndTime - record.proxyStartTime) }
  let record := { record with
    upstreamLatencyMs := durationMilliseconds (record.upstreamEndTime - record.upstreamStartTime) }
  { record with proxyOverheadMs := record.totalDurationMs - record.upstreamLatencyMs }

/-- AddRecord from internal/proxy/history.go: recompute the derived
metrics, prepend the record (most recent first), and if the length now
exceeds `maxSize`, trim to `maxSize`. -/
def RequestHistory.AddRecord (h : RequestHistory) (record : RequestRecord) : RequestHistory :=
  let record := setMetrics record
  let records := record :: h.records
  { h with records := if records.length > h.maxSize then records.take h.maxSize else records }

/-- GetRecords from internal/proxy/history.go: an independent copy of
the record list, most recent first (the copy is equality in the
functional model). -/
def RequestHistory.GetRecords (h : RequestHistory) : List RequestRecord :=
  h.records

/-- Clear from internal/proxy/history.go. -/
def RequestHistory.Clear (h : RequestHistory) : RequestHistory :=
  { h with records := [] }

/-- A value of the dynamically-typed `map[string]interface{}` the Go
`GetStats` returns: integers, a status-code count map, or a method
count map. -/
inductive StatValue where
  | int (n : Int)
  | statusCodes (m : List (Nat × Nat))
  | methods (m : List (String × Nat))
  deriving DecidableEq

/-- One step of building Go's `map[int]int` status-code counters:
`statusCounts[record.ResponseStatus]++`. -/
def bumpStatus (m : List (Nat × Nat)) (code : Nat) : List (Nat × Nat) :=
  match m with
  | [] => [(code, 1)]
  | (c, n) :: rest => if c = code then (c, n + 1) :: rest else (c, n) :: bumpStatus rest code

/-- One step of building Go's `map[string]int` method counters:
`methodCounts[record.Method]++`. -/
def bumpMethod (m : List (String × Nat)) (method : String) : List (String × Nat) :=
  match m with
  | [] => [(method, 1)]
  | (c, n) :: rest => if c = method then (c, n + 1) :: rest else (c, n) :: bumpMethod rest method

/-- GetStats from internal/proxy/history.go: on an empty store it
returns only `total_requests: 0`; otherwise one pass accumulates the
sums and counts and the result carries the averages computed with Go's
truncating `int64` division (`Int.tdiv`). -/
def RequestHistory.GetStats (h : RequestHistory) : List (String × StatValue) :=
  if h.records.length = 0 then
    [("total_requests", .int 0)]
  else
    let totalDuration := (h.records.map (·.totalDurationMs)).sum
    let totalUpstreamLatency := (h.records.map (·.upstreamLatencyMs)).sum
    let totalProxyOverhead := (h.records.map (·.proxyOverheadMs)).sum
    let totalRequestSize := (h.records.map (·.requestSize)).sum
    let totalResponseSize := (h.records.map (·.responseSize)).sum
    let successCount := (h.records.filter (·.success)).length
    let errorCount := (h.records.filter (fun rec => !rec.success)).length
    let statusCounts := h.records.foldl (fun m rec => bumpStatus m rec.responseStatus) []
    let methodCounts := h.records.foldl (fun m rec => bumpMethod m rec.method) []
    let count : Int := h.records.length
    [("total_requests", .int count),
     ("success_count", .int successCount),
     ("error_count", .int errorCount),
     ("avg_duration_ms", .int (Int.tdiv totalDuration count)),
     ("avg_upstream_latency_ms", .int (Int.tdiv totalUpstreamLatency count)),
     ("avg_proxy_overhead_ms", .int (Int.tdiv totalProxyOverhead count)),
     ("total_request_size", .int totalRequestSize),
     ("total_response_size", .int totalResponseSize),
     ("status_codes", .statusCodes statusCounts),
     ("methods", .methods methodCounts)]

/-- An inbound HTTP body as the Go pipeline can observe it: absent
(`r.Body == nil`), fully readable bytes, or a stream whose
`io.ReadAll` fails. -/
inductive GoBody where
  | nobody
  | bytes (content : String)
  | failing
  deriving DecidableEq

/-- The reader handed to the forwarding step by `captureRequestBody`:
Go `nil`, the original (partially consumed) `r.Body`, or a fresh
`bytes.NewReader` over the captured bytes. -/
inductive BodyReader where
  | nilReader
  | originalBody
  | freshReader (content : String)
  deriving DecidableEq

/-- captureRequestBody from internal/proxy/proxy.go: nil body gives
("", 0, nil); a failed `io.ReadAll` gives ("", 0, r.Body) — the
original reader, no error surfaced; success gives the captured string,
its byte length, and a fresh reader over the same bytes. -/
def captureRequestBody : GoBody → String × Int × BodyReader
  | .nobody => ("", 0, .nilReader)
  | .failing => ("", 0, .originalBody)
  | .bytes content => (content, (content.utf8ByteSize : Int), .freshReader content)

/-- captureResponseBody from internal/proxy/proxy.go: nil body gives
("", 0); a failed `io.ReadAll` returns the error (`none` here);
success gives the captured string and its byte length. -/
def captureResponseBody : GoBody → Option (String × Int)
  | .nobody => some ("", 0)
  | .failing => none
  | .bytes content => some (content, (content.utf8ByteSize : Int))

/-- An inbound request as handleHTTP observes it: method, the
rendering of `r.URL.String()`, the (canonicalised) header map with its
value lists, and the body stream. -/
structure GoRequest where
  method : String
  urlString : String
  headers : List (String × List String)
  body : GoBody
  deriving DecidableEq

/-- Go `http.Header.Get`: first value of the key, "" when absent. -/
def getHeader (headers : List (String × List String)) (key : String) : String :=
  match headers.find? (fun p => p.1 = key) with
  | some (_, v :: _) => v
  | _ => ""

/-- convertHeaders from internal/proxy/proxy.go: one value per name,
first value wins, names with no values dropped. -/
def convertHeaders (headers : List (String × List String)) : List (String × String) :=
  headers.filterMap (fun p =>
    match p.2 with
    | v :: _ => some (p.1, v)
    | [] => none)

/-- The upstream response as `p.httpClient.Do` delivers it, together
with whether the later `io.Copy` of its body to the client succeeds. -/
structure UpstreamResponse where
  status : Nat
  headers : List (String × List String)
  body : GoBody
  copyOk : Bool
  deriving DecidableEq

/-- The environment of one handleHTTP run: the behaviour of
`url.Parse` (returning the parsed URL's `String()` rendering on
success), the generated request ID, the successive values returned by
`time.Now()` (call number ↦ nanosecond instant, in program order on
the path taken), whether `http.NewRequest` succeeds, and the outcome
of `p.httpClient.Do` (`none` = transport error). -/
structure ProxyEnv where
  parseURL : String → Option String
  requestID : String
  clock : Nat → Int
  newRequestOk : Bool
  doResult : Option UpstreamResponse

/-- The outbound request handed to `p.httpClient.Do`: target URL
string, headers after the control header is skipped, and the body
reader produced by `captureRequestBody`. -/
structure ForwardedReq where
  target : String
  headers : List (String × List String)
  body : BodyReader
  deriving DecidableEq

/-- The observable outcome of one handleHTTP run: the status code
written to the client, the records passed to `AddRecord` (in order),
and the outbound request passed to `p.httpClient.Do`, if any. -/
structure HandleResult where
  clientStatus : Nat
  appended : List RequestRecord
  forwarded : Option ForwardedReq
  deriving DecidableEq

/-- The tail of handleHTTP after the target URL is resolved
(internal/proxy/proxy.go lines 213-300): build the outbound request
(500 on failure), execute it between the two upstream timestamps (502
on failure), capture the response body (500 on failure), populate the
record, stamp proxy-end before streaming, and flip the record to
failed if the final `io.Copy` to the client errors; every path ends in
exactly one `AddRecord`. -/
def forwardStage (env : ProxyEnv) (r : GoRequest) (record : RequestRecord)
    (targetStr : String) (bodyReader : BodyReader) : HandleResult :=
  if env.newRequestOk = false then
    let record := { record with
      error := "Failed to create proxy request", proxyEndTime := env.clock 1 }
    { clientStatus := 500, appended := [record], forwarded := none }
  else
    let proxyHeaders := r.headers.filter (fun p => p.1 ≠ "X-Fetchr-Destination")
    let fwd : ForwardedReq := { target := targetStr, headers := proxyHeaders, body := bodyReader }
    let record := { record with upstreamStartTime := env.clock 1 }
    match env.doResult with
    | none =>
      let record := { record with
        upstreamEndTime := env.clock 2,
        error := "Failed to proxy request", proxyEndTime := env.clock 3 }
      { clientStatus := 502, appended := [record], forwarded := some fwd }
    | some resp =>
      let record := { record with upstreamEndTime := env.clock 2 }
      match captureResponseBody resp.body with
      | none =>
        let record := { record with
          error := "Failed to read response body", proxyEndTime := env.clock 3 }
        { clientStatus := 500, appended := [record], forwarded := some fwd }
      | some (responseBody, responseSize) =>
        let record := { record with
          responseStatus := resp.status,
          responseHeaders := convertHeaders resp.headers,
          responseBody := responseBody,
          responseSize := responseSize,
          success := true,
          proxyEndTime := env.clock 3 }
        if resp.copyOk then
          { clientStatus := resp.status, appended := [record], forwarded := some fwd }
        else
          let record := { record with
            error := "Failed to copy response body", success := false }
          { clientStatus := resp.status, appended := [record], forwarded := some fwd }

/-- handleHTTP from internal/proxy/proxy.go: CORS headers, OPTIONS
short-circuit with 200 and no record, then record creation stamped at
proxy-start, request-body capture, destination resolution (the
X-Fetchr-Destination header overrides the request URL and replaces the
record's URL; an unparsable value is a 400), and the forwarding
stage. -/
def handleHTTP (env : ProxyEnv) (r : GoRequest) : HandleResult :=
  if r.method = "OPTIONS" then
    { clientStatus := 200, appended := [], forwarded := none }
  else
    let proxyStartTime := env.clock 0
    let captured := captureRequestBody r.body
    let record : RequestRecord := {
      id := env.requestID,
      timestamp := proxyStartTime,
      method := r.method,
      url := r.urlString,
      requestHeaders := convertHeaders r.headers,
      requestBody := captured.1,
      responseStatus := 0,
      responseHeaders := [],
      responseBody := "",
      proxyStartTime := proxyStartTime,
      upstreamStartTime := 0,
      upstreamEndTime := 0,
      proxyEndTime := 0,
      proxyOverheadMs := 0,
      upstreamLatencyMs := 0,
      totalDurationMs := 0,
      requestSize := captured.2.1,
      responseSize := 0,
      success := false,
      error := "" }
    let destinationHeader := getHeader r.headers "X-Fetchr-Destination"
    if destinationHeader ≠ "" then
      match env.parseURL destinationHeader with
      | none =>
        let record := { record with
          error := "Invalid X-Fetchr-Destination URL", proxyEndTime := env.clock 1 }
        { clientStatus := 400, appended := [record], forwarded := none }
      | some target =>
        let record := { record with url := destinationHeader }
        forwardStage env r record target captured.2.2
    else
      match env.parseURL r.urlString with
      | none =>
        let record := { record with
          error := "Invalid URL", proxyEndTime := env.clock 1 }
        { clientStatus := 400, appended := [record], forwarded := none }
      | some target =>
        forwardStage env r record target captured.2.2

/-- The environment of one handleConnect run: whether `net.Dial`
succeeds, whether the ResponseWriter supports hijacking, and whether
`Hijack()` succeeds. -/
structure ConnectEnv where
  dialOk : Bool
  hijackSupported : Bool
  hijackOk : Bool
  deriving DecidableEq

/-- handleConnect from internal/proxy/proxy.go: 503 when the dial
fails, 500 when hijacking is unsupported, 503 when `Hijack()` errors,
otherwise 200 and the two relay copies; it never touches the history
store (it does not even receive it). -/
def handleConnect (cenv : ConnectEnv) : Nat :=
  if cenv.dialOk = false then 503
  else if cenv.hijackSupported = false then 500
  else if cenv.hijackOk = false then 503
  else 200

/-- ServeHTTP from internal/proxy/proxy.go: CONNECT requests go to
handleConnect (no history access); everything else goes to handleHTTP,
whose appended records land in the store via `AddRecord`. -/
def ServeHTTP (hist : RequestHistory) (cenv : ConnectEnv) (env : ProxyEnv)
    (r : GoRequest) : RequestHistory × Nat :=
  if r.method = "CONNECT" then
    (hist, handleConnect cenv)
  else
    let res := handleHTTP env r
    (res.appended.foldl RequestHistory.AddRecord hist, res.clientStatus)

/-- Whether the destination-resolution step of handleHTTP succeeds:
the control header's value parses when the header is set, the request
URL parses otherwise. -/
def resolvedOk (env : ProxyEnv) (r : GoRequest) : Prop :=
  if getHeader r.headers "X-Fetchr-Destination" ≠ "" then
    (env.parseURL (getHeader r.headers "X-Fetchr-Destination")).isSome = true
  else
    (env.parseURL r.urlString).isSome = true

/-! Basic lemmas about the store operations. -/

theorem GetRecords_eq (h : RequestHistory) : h.GetRecords = h.records := rfl

theorem setMetrics_id (r : RequestRecord) : (setMetrics r).id = r.id := rfl

theorem AddRecord_maxSize (h : RequestHistory) (r : RequestRecord) :
    (h.AddRecord r).maxSize = h.maxSize := rfl

theorem AddRecord_records (h : RequestHistory) (r : RequestRecord) :
    (h.AddRecord r).records = (setMetrics r :: h.records).take h.maxSize := by
  unfold RequestHistory.AddRecord
  by_cases hlen : (setMetrics r :: h.records).length > h.maxSize
  · simp [hlen]
  · simp only [hlen, if_false]
    exact (List.take_of_length_le (by omega)).symm

theorem take_append_take {α : Type} (n : Nat) (l m : List α) :
    (l ++ m.take n).take n = (l ++ m).take n := by
  rw [List.take_append_eq_append_take, List.take_append_eq_append_take, List.take_take,
    min_eq_left (Nat.sub_le n l.length)]

theorem foldl_AddRecord_maxSize (rs : List RequestRecord) (h : RequestHistory) :
    (rs.foldl RequestHistory.AddRecord h).maxSize = h.maxSize := by
  induction rs generalizing h with
  | nil => rfl
  | cons r rs ih => rw [List.foldl_cons, ih, AddRecord_maxSize]

/-- The record list after any sequence of Appends starting from a store
respecting its capacity: the reversed appended records in front of the
old contents, trimmed to the capacity. -/
theorem foldl_AddRecord_records (rs : List RequestRecord) (h : RequestHistory)
    (hle : h.records.length ≤ h.maxSize) :
    (rs.foldl RequestHistory.AddRecord h).records
      = ((rs.map setMetrics).reverse ++ h.records).take h.maxSize := by
  induction rs generalizing h with
  | nil => simpa using (List.take_of_length_le hle).symm
  | cons r rs ih =>
    rw [List.foldl_cons,
      ih (h.AddRecord r) (by rw [AddRecord_records, AddRecord_maxSize]; simp [List.length_take]),
      AddRecord_maxSize, AddRecord_records, take_append_take]
    simp

/-- A record with every field zero or empty, used to build concrete
inputs. -/
def emptyRecord : RequestRecord :=
  { id := "", timestamp := 0, method := "", url := "", requestHeaders := [],
    requestBody := "", responseStatus := 0, responseHeaders := [], responseBody := "",
    proxyStartTime := 0, upstreamStartTime := 0, upstreamEndTime := 0, proxyEndTime := 0,
    proxyOverheadMs := 0, upstreamLatencyMs := 0, totalDurationMs := 0,
    requestSize := 0, responseSize := 0, success := false, error := "" }

/-- The timing input of the spec's metric-correctness property (and of
TestCalculateMetrics in history_test.go): proxy-start t0 = 0,
upstream-start t0+5ms, upstream-end t0+15ms, proxy-end t0+20ms, in
nanoseconds. -/
def sampleTimingRecord : RequestRecord :=
  { emptyRecord with
    id := "test", method := "GET", url := "http://example.com",
    proxyStartTime := 0, upstreamStartTime := 5000000,
    upstreamEndTime := 15000000, proxyEndTime := 20000000, success := true }

/-- C2: the claim says the store holds the derived metrics in integer
microseconds (total 20000µs, upstream 10000µs, overhead 10000µs for
the 5ms/15ms/20ms example).  The code (`AddRecord`, history.go lines
61-64) instead computes `Duration.Milliseconds()` into the `..Ms`
fields: at exactly the claim's input the stored values are 20, 10 and
10 milliseconds, contradicting both the claim and the repository's own
TestCalculateMetrics, which asserts `TotalDurationUs == 20000`.  This
theorem evaluates the embedded code at the failing input. -/
theorem metrics_are_milliseconds_at_spec_input :
    (((NewRequestHistory 10).AddRecord sampleTimingRecord).GetRecords).map
        (fun rec => (rec.totalDurationMs, rec.upstreamLatencyMs, rec.proxyOverheadMs))
      = [(20, 10, 10)] := by
  decide

/-- First stats record of the spec's averaging property: a successful
GET with a 20ms total span. -/
def statsRecordA : RequestRecord :=
  { emptyRecord with
    id := "1", method := "GET", responseStatus := 200,
    proxyStartTime := 0, upstreamStartTime := 5000000, upstreamEndTime := 15000000,
    proxyEndTime := 20000000, requestSize := 100, responseSize := 500, success := true }

/-- Second stats record of the spec's averaging property: a failed
POST with a 15ms total span. -/
def statsRecordB : RequestRecord :=
  { emptyRecord with
    id := "2", method := "POST", responseStatus := 500,
    proxyStartTime := 0, upstreamStartTime := 2000000, upstreamEndTime := 12000000,
    proxyEndTime := 15000000, requestSize := 200, responseSize := 100, success := false }

/-- C6: the claim says the averages are reported as `avg_duration_us`
etc., with the two 20ms/15ms records giving `avg_duration_us ==
17500`.  The code (`GetStats`, history.go lines 136-148) reports
`avg_duration_ms` computed from the millisecond metrics: at the
claim's input the result holds `avg_duration_ms == 17` (truncated
(20+15)/2) and has no `avg_duration_us` field at all, contradicting
the claim and the repository's own TestGetStats.  The truncating-
average arithmetic itself matches the claim; only the unit and field
names diverge.  This theorem evaluates the embedded code at the
failing input. -/
theorem stats_average_is_milliseconds_at_spec_input :
    ((((NewRequestHistory 10).AddRecord statsRecordA).AddRecord statsRecordB).GetStats).lookup
        "avg_duration_ms" = some (StatValue.int 17) ∧
    ((((NewRequestHistory 10).AddRecord statsRecordA).AddRecord statsRecordB).GetStats).lookup
        "avg_duration_us" = none ∧
    ((((NewRequestHistory 10).AddRecord statsRecordA).AddRecord statsRecordB).GetStats).lookup
        "total_requests" = some (StatValue.int 2) := by
  decide

/-- C7: on the empty store `GetStats` returns only `total_requests: 0`
(a zeroed/empty result with no average fields, hence no division is
performed), and on any non-empty store the divisor `len(h.records)` is
non-zero, so no divide-by-zero is reachable. -/
theorem empty_store_stats :
    (∀ h : RequestHistory, h.GetRecords = [] →
        h.GetStats = [("total_requests", StatValue.int 0)]) ∧
    (∀ h : RequestHistory, h.GetRecords ≠ [] → ((h.GetRecords).length : Int) ≠ 0) := by
  constructor
  · intro h he
    rw [GetRecords_eq] at he
    simp [RequestHistory.GetStats, he]
  · intro h he
    rw [GetRecords_eq] at he
    simp [List.length_eq_zero]
    exact he

/-- Witness for C7 at the concrete empty store `NewRequestHistory 5`. -/
theorem empty_store_stats_witness :
    (NewRequestHistory 5).GetStats = [("total_requests", StatValue.int 0)] :=
  empty_store_stats.1 (NewRequestHistory 5) rfl

/-- C3: appending a record R to any store with positive capacity puts
R — with its derived metrics recomputed by Append, all other fields
untouched — at index 0 of the next snapshot, and the rest of the
snapshot is the previous snapshot (trimmed to capacity): snapshots are
most-recent-first in insertion order.  For a record whose derived
metric fields are already consistent the snapshot head is R itself. -/
theorem ordering_invariant (h : RequestHistory) (R : RequestRecord)
    (hpos : 0 < h.maxSize) :
    (h.AddRecord R).GetRecords = setMetrics R :: (h.GetRecords.take (h.maxSize - 1)) ∧
    ((h.AddRecord R).GetRecords).head? = some (setMetrics R) ∧
    (setMetrics R).id = R.id ∧ (setMetrics R).method = R.method ∧
    (setMetrics R).url = R.url ∧
    (setMetrics R = R → ((h.AddRecord R).GetRecords).head? = some R) := by
  obtain ⟨n, hn⟩ : ∃ n, h.maxSize = n + 1 := ⟨h.maxSize - 1, by omega⟩
  have hrec : (h.AddRecord R).GetRecords = setMetrics R :: (h.GetRecords.take (h.maxSize - 1)) := by
    rw [GetRecords_eq, AddRecord_records, GetRecords_eq, hn]
    simp [List.take_succ_cons]
  refine ⟨hrec, by rw [hrec]; rfl, rfl, rfl, rfl, fun hcons => ?_⟩
  rw [hrec, hcons]
  rfl

/-- Witness for C3 at a store of capacity 3 holding one record, with a
metrically consistent appended record. -/
theorem ordering_invariant_witness :
    (((NewRequestHistory 3).AddRecord emptyRecord).AddRecord sampleTimingRecord).GetRecords
        = setMetrics sampleTimingRecord ::
          ((((NewRequestHistory 3).AddRecord emptyRecord).GetRecords).take
            (((NewRequestHistory 3).AddRecord emptyRecord).maxSize - 1)) ∧
    ((((NewRequestHistory 3).AddRecord emptyRecord).AddRecord sampleTimingRecord).GetRecords).head?
        = some (setMetrics sampleTimingRecord) ∧
    (setMetrics sampleTimingRecord).id = sampleTimingRecord.id ∧
    (setMetrics sampleTimingRecord).method = sampleTimingRecord.method ∧
    (setMetrics sampleTimingRecord).url = sampleTimingRecord.url ∧
    (setMetrics sampleTimingRecord = sampleTimingRecord →
      ((((NewRequestHistory 3).AddRecord emptyRecord).AddRecord
          sampleTimingRecord).GetRecords).head? = some sampleTimingRecord) :=
  ordering_invariant ((NewRequestHistory 3).AddRecord emptyRecord) sampleTimingRecord (by decide)

/-- C9: a CONNECT request is dispatched to handleConnect, which never
receives the history store: for every store, every tunnel outcome
(dial failure, hijack failure or a successful tunnel) and every
pipeline environment, serving a CONNECT request leaves the store's
contents unchanged. -/
theorem connect_preserves_history (hist : RequestHistory) (cenv : ConnectEnv)
    (env : ProxyEnv) (r : GoRequest) (hc : r.method = "CONNECT") :
    (ServeHTTP hist cenv env r).1 = hist := by
  simp [ServeHTTP, hc]

/-- A concrete pipeline environment used by witnesses: every parse
fails, the clock is constantly zero, construction succeeds, the
upstream transport errors. -/
def trivialEnv : ProxyEnv :=
  { parseURL := fun _ => none, requestID := "id0", clock := fun _ => 0,
    newRequestOk := true, doResult := none }

/-- Witness for C9: a concrete CONNECT request against a concrete
non-empty store, under a failing-dial tunnel environment. -/
theorem connect_preserves_history_witness :
    (ServeHTTP ((NewRequestHistory 3).AddRecord emptyRecord)
        { dialOk := false, hijackSupported := true, hijackOk := true } trivialEnv
        { method := "CONNECT", urlString := "example.com:443", headers := [],
          body := GoBody.nobody }).1
      = (NewRequestHistory 3).AddRecord emptyRecord :=
  connect_preserves_history ((NewRequestHistory 3).AddRecord emptyRecord)
    { dialOk := false, hijackSupported := true, hijackOk := true } trivialEnv
    { method := "CONNECT", urlString := "example.com:443", headers := [],
      body := GoBody.nobody } rfl

/-- C1: a store of positive capacity N never holds more than N records
under any sequence of Appends; after exactly N+k Appends the snapshot
has length N, and (for records with pairwise distinct IDs, the
record's identity) none of the k oldest-appended records remains in
the snapshot. -/
theorem capacity_invariant (N k : Nat) (hN : 0 < N) (rs : List RequestRecord)
    (hlen : rs.length = N + k) (hnodup : (rs.map RequestRecord.id).Nodup) :
    (∀ ts : List RequestRecord,
        ((ts.foldl RequestHistory.AddRecord (NewRequestHistory N)).GetRecords).length ≤ N) ∧
    ((rs.foldl RequestHistory.AddRecord (NewRequestHistory N)).GetRecords).length = N ∧
    (∀ x ∈ rs.take k, x.id ∉
        ((rs.foldl RequestHistory.AddRecord (NewRequestHistory N)).GetRecords).map
          RequestRecord.id) := by
  have hrecords : ∀ ts : List RequestRecord,
      (ts.foldl RequestHistory.AddRecord (NewRequestHistory N)).records
        = ((ts.map setMetrics).reverse).take N := by
    intro ts
    have h0 := foldl_AddRecord_records ts (NewRequestHistory N) (by simp [NewRequestHistory])
    simpa [NewRequestHistory] using h0
  have hids : ((rs.foldl RequestHistory.AddRecord (NewRequestHistory N)).GetRecords).map
        RequestRecord.id = ((rs.map RequestRecord.id).reverse).take N := by
    rw [GetRecords_eq, hrecords, List.map_take, List.map_reverse, List.map_map]
    simp only [Function.comp_def, setMetrics_id]
  refine ⟨?_, ?_, ?_⟩
  · intro ts
    rw [GetRecords_eq, hrecords]
    simp [List.length_take]
  · rw [GetRecords_eq, hrecords]
    simp [List.length_take, hlen]
  · intro x hx hmem
    rw [hids] at hmem
    set ids := rs.map RequestRecord.id with hidsdef
    have hlen_ids : ids.length = N + k := by simp [hidsdef, hlen]
    have hrev : ids.reverse.take N = (ids.drop k).reverse := by
      have h2 : (ids.reverse.take N).reverse = ids.drop k := by
        rw [List.reverse_take, List.reverse_reverse, List.length_reverse, hlen_ids,
          Nat.add_sub_cancel_left]
      rw [← List.reverse_reverse (ids.reverse.take N), h2]
    rw [hrev, List.mem_reverse] at hmem
    have htake : x.id ∈ ids.take k := by
      rw [hidsdef, ← List.map_take]
      exact List.mem_map_of_mem RequestRecord.id hx
    have hnd : (ids.take k ++ ids.drop k).Nodup := by
      rw [List.take_append_drop]; exact hnodup
    exact (List.nodup_append.mp hnd).2.2 htake hmem

/-- Witness for C1 at capacity N = 1 with 1 + 1 = 2 appended records
with distinct IDs. -/
theorem capacity_invariant_witness :
    (∀ ts : List RequestRecord,
        ((ts.foldl RequestHistory.AddRecord (NewRequestHistory 1)).GetRecords).length ≤ 1) ∧
    (([statsRecordA, statsRecordB].foldl RequestHistory.AddRecord
        (NewRequestHistory 1)).GetRecords).length = 1 ∧
    (∀ x ∈ [statsRecordA, statsRecordB].take 1, x.id ∉
        (([statsRecordA, statsRecordB].foldl RequestHistory.AddRecord
            (NewRequestHistory 1)).GetRecords).map RequestRecord.id) :=
  capacity_invariant 1 1 (by decide) [statsRecordA, statsRecordB] (by decide) (by decide)

/-- C4: on every non-OPTIONS path through handleHTTP the record is
appended to the history exactly once, and each of the three claimed
failure points sets the record's error field and proxy-end timestamp
and returns its claimed status — 400 for an unparsable destination
(either the control header's value or the request URL), 500 when the
outbound request cannot be constructed, 502 when the upstream call
fails.  No retry exists: the model issues at most one upstream call
per request by construction. -/
theorem pipeline_error_handling (env : ProxyEnv) (r : GoRequest)
    (hm : r.method ≠ "OPTIONS") :
    (handleHTTP env r).appended.length = 1 ∧
    ∀ rec ∈ (handleHTTP env r).appended,
      ((getHeader r.headers "X-Fetchr-Destination" ≠ "" ∧
          env.parseURL (getHeader r.headers "X-Fetchr-Destination") = none) →
        (handleHTTP env r).clientStatus = 400 ∧ rec.error ≠ "" ∧
          rec.proxyEndTime = env.clock 1) ∧
      ((getHeader r.headers "X-Fetchr-Destination" = "" ∧ env.parseURL r.urlString = none) →
        (handleHTTP env r).clientStatus = 400 ∧ rec.error ≠ "" ∧
          rec.proxyEndTime = env.clock 1) ∧
      (resolvedOk env r → env.newRequestOk = false →
        (handleHTTP env r).clientStatus = 500 ∧ rec.error ≠ "" ∧
          rec.proxyEndTime = env.clock 1) ∧
      (resolvedOk env r → env.newRequestOk = true → env.doResult = none →
        (handleHTTP env r).clientStatus = 502 ∧ rec.error ≠ "" ∧
          rec.proxyEndTime = env.clock 3) := by
  by_cases hd : getHeader r.headers "X-Fetchr-Destination" = ""
  · cases hp : env.parseURL r.urlString with
    | none => simp [handleHTTP, hm, hd, hp, resolvedOk]
    | some target =>
      by_cases hn : env.newRequestOk
      · cases hdo : env.doResult with
        | none => simp [handleHTTP, forwardStage, hm, hd, hp, hn, hdo, resolvedOk]
        | some resp =>
          cases hb : captureResponseBody resp.body with
          | none => simp [handleHTTP, forwardStage, hm, hd, hp, hn, hdo, hb, resolvedOk]
          | some pair =>
            by_cases hc : resp.copyOk
            · simp [handleHTTP, forwardStage, hm, hd, hp, hn, hdo, hb, hc, resolvedOk]
            · simp [handleHTTP, forwardStage, hm, hd, hp, hn, hdo, hb, hc, resolvedOk]
      · simp [handleHTTP, forwardStage, hm, hd, hp, hn, resolvedOk]
  · cases hp : env.parseURL (getHeader r.headers "X-Fetchr-Destination") with
    | none => simp [handleHTTP, hm, hd, hp, resolvedOk]
    | some target =>
      by_cases hn : env.newRequestOk
      · cases hdo : env.doResult with
        | none => simp [handleHTTP, forwardStage, hm, hd, hp, hn, hdo, resolvedOk]
        | some resp =>
          cases hb : captureResponseBody resp.body with
          | none => simp [handleHTTP, forwardStage, hm, hd, hp, hn, hdo, hb, resolvedOk]
          | some pair =>
            by_cases hc : resp.copyOk
            · simp [handleHTTP, forwardStage, hm, hd, hp, hn, hdo, hb, hc, resolvedOk]
            · simp [handleHTTP, forwardStage, hm, hd, hp, hn, hdo, hb, hc, resolvedOk]
      · simp [handleHTTP, forwardStage, hm, hd, hp, hn, resolvedOk]

/-- A concrete plain GET request with no control header and no body. -/
def reqGet : GoRequest :=
  { method := "GET", urlString := "http://example.com/a", headers := [],
    body := GoBody.nobody }

/-- Witness for C4 at a concrete GET request under an environment
whose parses fail, so the 400 branch of the theorem fires. -/
theorem pipeline_error_handling_witness :
    (handleHTTP trivialEnv reqGet).appended.length = 1 ∧
    ∀ rec ∈ (handleHTTP trivialEnv reqGet).appended,
      ((getHeader reqGet.headers "X-Fetchr-Destination" ≠ "" ∧
          trivialEnv.parseURL (getHeader reqGet.headers "X-Fetchr-Destination") = none) →
        (handleHTTP trivialEnv reqGet).clientStatus = 400 ∧ rec.error ≠ "" ∧
          rec.proxyEndTime = trivialEnv.clock 1) ∧
      ((getHeader reqGet.headers "X-Fetchr-Destination" = "" ∧
          trivialEnv.parseURL reqGet.urlString = none) →
        (handleHTTP trivialEnv reqGet).clientStatus = 400 ∧ rec.error ≠ "" ∧
          rec.proxyEndTime = trivialEnv.clock 1) ∧
      (resolvedOk trivialEnv reqGet → trivialEnv.newRequestOk = false →
        (handleHTTP trivialEnv reqGet).clientStatus = 500 ∧ rec.error ≠ "" ∧
          rec.proxyEndTime = trivialEnv.clock 1) ∧
      (resolvedOk trivialEnv reqGet → trivialEnv.newRequestOk = true →
          trivialEnv.doResult = none →
        (handleHTTP trivialEnv reqGet).clientStatus = 502 ∧ rec.error ≠ "" ∧
          rec.proxyEndTime = trivialEnv.clock 3) :=
  pipeline_error_handling trivialEnv reqGet (by decide)

/-- C5: for a request carrying a non-empty control header whose value
parses as a URL (and renders back to itself, as for the spec's
example URL) and whose outbound construction succeeds, the record's
URL is the header value, the forwarded target is the header value,
and the control header is absent from the headers sent upstream —
whatever the request-line URL is. -/
theorem destination_override (env : ProxyEnv) (r : GoRequest)
    (hm : r.method ≠ "OPTIONS")
    (hne : getHeader r.headers "X-Fetchr-Destination" ≠ "")
    (hp : env.parseURL (getHeader r.headers "X-Fetchr-Destination")
        = some (getHeader r.headers "X-Fetchr-Destination"))
    (hok : env.newRequestOk = true) :
    ((handleHTTP env r).forwarded).isSome = true ∧
    (∀ rec ∈ (handleHTTP env r).appended,
        rec.url = getHeader r.headers "X-Fetchr-Destination") ∧
    (∀ fwd, (handleHTTP env r).forwarded = some fwd →
        fwd.target = getHeader r.headers "X-Fetchr-Destination" ∧
        ∀ p ∈ fwd.headers, p.1 ≠ "X-Fetchr-Destination") := by
  cases hdo : env.doResult with
  | none =>
    simp [handleHTTP, forwardStage, hm, hne, hp, hok, hdo, List.mem_filter]
  | some resp =>
    cases hb : captureResponseBody resp.body with
    | none => simp [handleHTTP, forwardStage, hm, hne, hp, hok, hdo, hb, List.mem_filter]
    | some pair =>
      by_cases hc : resp.copyOk
      · simp [handleHTTP, forwardStage, hm, hne, hp, hok, hdo, hb, hc, List.mem_filter]
      · simp [handleHTTP, forwardStage, hm, hne, hp, hok, hdo, hb, hc, List.mem_filter]

/-- A concrete successful upstream response whose body copy to the
client succeeds. -/
def okResp : UpstreamResponse :=
  { status := 200, headers := [("X-Test", ["v"])], body := GoBody.bytes "ok", copyOk := true }

/-- A concrete environment whose `url.Parse` succeeds and round-trips
every string, with a successful upstream call. -/
def echoEnv : ProxyEnv :=
  { parseURL := fun s => some s, requestID := "id1", clock := fun n => n,
    newRequestOk := true, doResult := some okResp }

/-- A concrete request whose control header names a destination that
differs from its request-line URL. -/
def reqWithDest : GoRequest :=
  { method := "GET", urlString := "http://localhost:3000/api",
    headers := [("X-Fetchr-Destination", ["https://api.example.com/x"]), ("Accept", ["*/*"])],
    body := GoBody.nobody }

/-- Witness for C5 at the spec's example: control header
`https://api.example.com/x` on a request whose own URL differs. -/
theorem destination_override_witness :
    ((handleHTTP echoEnv reqWithDest).forwarded).isSome = true ∧
    (∀ rec ∈ (handleHTTP echoEnv reqWithDest).appended,
        rec.url = getHeader reqWithDest.headers "X-Fetchr-Destination") ∧
    (∀ fwd, (handleHTTP echoEnv reqWithDest).forwarded = some fwd →
        fwd.target = getHeader reqWithDest.headers "X-Fetchr-Destination" ∧
        ∀ p ∈ fwd.headers, p.1 ≠ "X-Fetchr-Destination") :=
  destination_override echoEnv reqWithDest (by decide) (by decide) (by decide) (by decide)

/-- C8: when the upstream call succeeded and its body was captured but
the copy of the response body to the client fails, the appended
record is marked success=false with a non-empty error, while the
status already written to the client is the upstream's own status. -/
theorem relay_failure_marks_record (env : ProxyEnv) (r : GoRequest) (resp : UpstreamResponse)
    (hm : r.method ≠ "OPTIONS") (hres : resolvedOk env r) (hok : env.newRequestOk = true)
    (hdo : env.doResult = some resp) (hb : (captureResponseBody resp.body).isSome = true)
    (hcopy : resp.copyOk = false) :
    (handleHTTP env r).clientStatus = resp.status ∧
    ∀ rec ∈ (handleHTTP env r).appended, rec.success = false ∧ rec.error ≠ "" := by
  obtain ⟨pair, hpair⟩ := Option.isSome_iff_exists.mp hb
  by_cases hd : getHeader r.headers "X-Fetchr-Destination" = ""
  · obtain ⟨target, hp⟩ := Option.isSome_iff_exists.mp (by simpa [resolvedOk, hd] using hres)
    simp [handleHTTP, forwardStage, hm, hd, hp, hok, hdo, hpair, hcopy]
  · obtain ⟨target, hp⟩ := Option.isSome_iff_exists.mp (by simpa [resolvedOk, hd] using hres)
    simp [handleHTTP, forwardStage, hm, hd, hp, hok, hdo, hpair, hcopy]

/-- A concrete upstream response whose copy to the client fails. -/
def badCopyResp : UpstreamResponse :=
  { status := 200, headers := [], body := GoBody.bytes "partial", copyOk := false }

/-- A concrete environment delivering `badCopyResp`. -/
def badCopyEnv : ProxyEnv :=
  { parseURL := fun s => some s, requestID := "id2", clock := fun n => n,
    newRequestOk := true, doResult := some badCopyResp }

/-- Witness for C8 at a concrete request whose response-body relay
fails after a 200 from upstream. -/
theorem relay_failure_marks_record_witness :
    (handleHTTP badCopyEnv reqGet).clientStatus = badCopyResp.status ∧
    ∀ rec ∈ (handleHTTP badCopyEnv reqGet).appended,
      rec.success = false ∧ rec.error ≠ "" :=
  relay_failure_marks_record badCopyEnv reqGet badCopyResp (by decide)
    (by simp [resolvedOk, getHeader, reqGet, badCopyEnv]) (by decide) (by decide)
    (by decide) (by decide)

/-- C10: a failed read of the inbound request body leaves the captured
body empty with size 0 and hands the original reader onward;
handleHTTP then forwards the request with that reader and, when the
rest of the pipeline succeeds, the appended record has no error, is
marked success, and carries the empty captured body — the read
failure is surfaced neither to the client nor in the record. -/
theorem request_body_failure_not_surfaced (env : ProxyEnv) (r : GoRequest)
    (resp : UpstreamResponse) (hm : r.method ≠ "OPTIONS") (hbody : r.body = GoBody.failing)
    (hres : resolvedOk env r) (hok : env.newRequestOk = true)
    (hdo : env.doResult = some resp) (hb : (captureResponseBody resp.body).isSome = true)
    (hcopy : resp.copyOk = true) :
    captureRequestBody r.body = ("", 0, BodyReader.originalBody) ∧
    (handleHTTP env r).clientStatus = resp.status ∧
    (∀ fwd, (handleHTTP env r).forwarded = some fwd → fwd.body = BodyReader.originalBody) ∧
    ∀ rec ∈ (handleHTTP env r).appended,
      rec.error = "" ∧ rec.success = true ∧ rec.requestBody = "" ∧ rec.requestSize = 0 := by
  obtain ⟨pair, hpair⟩ := Option.isSome_iff_exists.mp hb
  by_cases hd : getHeader r.headers "X-Fetchr-Destination" = ""
  · obtain ⟨target, hp⟩ := Option.isSome_iff_exists.mp (by simpa [resolvedOk, hd] using hres)
    simp [handleHTTP, forwardStage, captureRequestBody, hm, hbody, hd, hp, hok, hdo, hpair,
      hcopy]
  · obtain ⟨target, hp⟩ := Option.isSome_iff_exists.mp (by simpa [resolvedOk, hd] using hres)
    simp [handleHTTP, forwardStage, captureRequestBody, hm, hbody, hd, hp, hok, hdo, hpair,
      hcopy]

/-- A concrete POST request whose inbound body read fails. -/
def reqFailingBody : GoRequest :=
  { method := "POST", urlString := "http://example.com/u", headers := [],
    body := GoBody.failing }

/-- Witness for C10 at a concrete request with a failing body read and
an otherwise successful pipeline. -/
theorem request_body_failure_not_surfaced_witness :
    captureRequestBody reqFailingBody.body = ("", 0, BodyReader.originalBody) ∧
    (handleHTTP echoEnv reqFailingBody).clientStatus = okResp.status ∧
    (∀ fwd, (handleHTTP echoEnv reqFailingBody).forwarded = some fwd →
        fwd.body = BodyReader.originalBody) ∧
    ∀ rec ∈ (handleHTTP echoEnv reqFailingBody).appended,
      rec.error = "" ∧ rec.success = true ∧ rec.requestBody = "" ∧ rec.requestSize = 0 :=
  request_body_failure_not_surfaced echoEnv reqFailingBody okResp (by decide) (by decide)
    (by simp [resolvedOk, getHeader, reqFailingBody, echoEnv]) (by decide) (by decide)
    (by decide) (by decide)

end Fetchr
